import Mathlib

/-!
Verification of the upload admission and background-transfer pipeline of
`src/app.py` (Flask audio-upload app for Cloud Run).

The Python source is shallowly embedded: pure helpers become Lean functions;
the request handler and the background worker become functions from explicit
oracle inputs (clock reading, random suffix, simulated I/O outcomes) to a
record of the response and the side effects performed (staging-directory
contents, storage calls, local deletions).
-/

namespace M4aUpload

/-! ## Validator (`allowed_file`, app.py lines 27-29) -/

/-- The allow-listed extensions `{'m4a', 'mp3', 'wav', 'aac'}` (app.py line 29). -/
def allowedExtensions : List (List Char) :=
  ["m4a".data, "mp3".data, "wav".data, "aac".data]

/-- Python `filename.rsplit('.', 1)` restricted to the case where a `'.'` occurs:
returns `some (before, after)` splitting at the LAST `'.'`, and `none` when the
name has no `'.'` (where Python would return a one-element list). -/
def splitLastDot : List Char → Option (List Char × List Char)
  | [] => none
  | c :: rest =>
    match splitLastDot rest with
    | some (b, e) => some (c :: b, e)
    | none => if c = '.' then some ([], rest) else none

/-- Python function `allowed_file(filename)` (app.py line 29):
`'.' in filename and filename.rsplit('.', 1)[1].lower() in {'m4a','mp3','wav','aac'}`.
Python `str.lower` is modelled by `Char.toLower`; the two agree on ASCII, and no
non-ASCII character lower-cases to a letter of the allow-listed extensions. -/
def allowed_file (filename : String) : Bool :=
  match splitLastDot filename.data with
  | none => false
  | some (_, ext) => allowedExtensions.contains (ext.map Char.toLower)

/-! ## Response-filename pattern (for C5)

The spec's end-to-end test demands that the `filename` of the 200 response
for an upload named `clip.M4A` match `\d{8}_\d{6}_[0-9a-f]{8}_clip\.m4a`. -/

def isDigitCh (c : Char) : Bool := '0' ≤ c && c ≤ '9'

def isLowerHexCh (c : Char) : Bool := isDigitCh c || ('a' ≤ c && c ≤ 'f')

/-- Holds when `s` matches the regular expression `\d{8}_\d{6}_[0-9a-f]{8}_clip\.m4a`. -/
def clipPattern (s : String) : Prop :=
  ∃ d8 d6 h8 : List Char,
    s.data = d8 ++ '_' :: (d6 ++ '_' :: (h8 ++ "_clip.m4a".data)) ∧
    d8.length = 8 ∧ d6.length = 6 ∧ h8.length = 8 ∧
    (∀ c ∈ d8, isDigitCh c = true) ∧ (∀ c ∈ d6, isDigitCh c = true) ∧
    (∀ c ∈ h8, isLowerHexCh c = true)

/-! Spec-side characterization for C7, written from the claim's words rather
than from the code: the substring after the last dot is computed independently,
by taking the maximal dot-free suffix of a name known to contain a dot. -/

/-- The substring after the last `'.'` of `l`, computed independently of
`splitLastDot`: the longest suffix containing no `'.'`. -/
def afterLastDot (l : List Char) : List Char :=
  (l.reverse.takeWhile (fun c => c ≠ '.')).reverse

/-! ## Transfer Worker (`process_audio_file`, app.py lines 31-70)

The worker runs in a detached thread. Its interactions with durable storage
are modelled by an oracle giving the outcome of the existence check
(`blob.exists()`) and of the upload call; a Python exception raised by either
is modelled as `.error msg`. The trace records the storage calls made and the
local-file effects. The staged file exists when the worker starts (the
coordinator just wrote it), so `os.path.getsize` succeeds, and `os.remove` on
a present file is modelled as succeeding. -/

def BUCKET_NAME : String := "terry_app_bucket"

/-- Files above this size use resumable upload (app.py line 52). -/
def RESUMABLE_THRESHOLD : Nat := 8 * 1024 * 1024

structure StorageOracle where
  /-- Outcome of `blob.exists()` (app.py line 45): `.ok b`, or `.error e` when
  the call raises an exception with message `e`. -/
  existsResult : Except String Bool
  /-- Outcome of `blob.upload_from_filename` / `blob.upload_from_file`
  (app.py lines 54, 57). -/
  uploadResult : Except String Unit

structure WorkerTrace where
  /-- Destination keys queried for existence, in order. -/
  existsKeys : List String := []
  /-- Destination keys for which an upload (put) was attempted, in order. -/
  putKeys : List String := []
  /-- Whether the resumable-upload branch (app.py line 54) was taken. -/
  resumableUsed : Bool := false
  /-- Number of `os.remove(filepath)` calls performed on the staged file. -/
  deletes : Nat := 0
  /-- Whether the staged file is still on disk. -/
  fileRemains : Bool := true
deriving DecidableEq

structure WorkerResult where
  trace : WorkerTrace
  /-- Whether an exception escaped `process_audio_file` to its caller. -/
  raised : Bool
  /-- The message logged by the `except` handler (app.py line 67), if it ran. -/
  caughtError : Option String
deriving DecidableEq

/-- The `try` block of `process_audio_file` (app.py lines 33-64). An exception
escaping the block is `.error (msg, trace)` with the side effects performed so
far. -/
def worker_try_body (original_filename : String) (file_size : Nat)
    (oracle : StorageOracle) : Except (String × WorkerTrace) WorkerTrace :=
  -- line 36: os.path.getsize(filepath) — succeeds, the staged file is present
  -- lines 40-42: blob_name = f"audio-uploads/{original_filename}"
  let blob_name := "audio-uploads/" ++ original_filename
  -- line 45: blob.exists()
  let t1 : WorkerTrace := { existsKeys := [blob_name] }
  match oracle.existsResult with
  | .error e => .error (e, t1)
  | .ok true =>
    -- lines 46-49: duplicate — remove the local file (guarded by
    -- os.path.exists) and return without uploading
    .ok { t1 with deletes := 1, fileRemains := false }
  | .ok false =>
    -- lines 52-57: resumable upload for files > 8 MiB, single-shot otherwise
    let t2 :=
      if file_size > RESUMABLE_THRESHOLD then
        { t1 with putKeys := [blob_name], resumableUsed := true }
      else
        { t1 with putKeys := [blob_name] }
    match oracle.uploadResult with
    | .error e => .error (e, t2)
    | .ok _ =>
      -- lines 62-64: clean up the local temp file
      .ok { t2 with deletes := 1, fileRemains := false }

/-- The `except` handler of `process_audio_file` (app.py lines 66-70): log the
error and remove the staged file if it still exists. It does not re-raise. -/
def worker_except (e : String) (t : WorkerTrace) : WorkerResult :=
  let t' :=
    if t.fileRemains then { t with deletes := t.deletes + 1, fileRemains := false }
    else t
  { trace := t', raised := false, caughtError := some e }

/-- Embedding of `process_audio_file(filepath, original_filename)` (app.py lines 31-70),
as a function of the upload's size and the storage oracle. -/
def process_audio_file (original_filename : String) (file_size : Nat)
    (oracle : StorageOracle) : WorkerResult :=
  match worker_try_body original_filename file_size oracle with
  | .ok t => { trace := t, raised := false, caughtError := none }
  | .error (e, t) => worker_except e t

/-! ## Upload Coordinator (`handle_upload`, app.py lines 72-128) -/

/-- Chunk size (8 KiB) of the staging write loop (app.py line 107). -/
def CHUNK_SIZE : Nat := 8192

/-- Maximum upload size: `app.config['MAX_CONTENT_LENGTH'] = 1000 * 1024 * 1024` (app.py line 13). -/
def MAX_CONTENT_LENGTH : Nat := 1000 * 1024 * 1024

def UPLOAD_FOLDER : String := "/tmp/uploads"

/-- A part of the multipart form: the client-supplied filename and the size
observed by seek-to-end/tell (app.py lines 84-86). -/
structure FilePart where
  filename : String
  size : Nat
deriving DecidableEq

/-- The inbound request: `request.files` as an association list from form
field names to file parts. -/
structure Request where
  files : List (String × FilePart)
deriving DecidableEq

/-- Lookup of a form field in `request.files`; `none` models
`'audio_file' not in request.files`. -/
def lookupField : List (String × FilePart) → String → Option FilePart
  | [], _ => none
  | (k, v) :: rest, key => if k = key then some v else lookupField rest key

/-- A clock reading, the components `datetime.now()` exposes to
`strftime('%Y%m%d_%H%M%S')`. -/
structure DateTime where
  year : Nat
  month : Nat
  day : Nat
  hour : Nat
  minute : Nat
  second : Nat
deriving DecidableEq

/-- The decimal digit character of `n % 10`. -/
def digitChar (n : Nat) : Char :=
  match n % 10 with
  | 0 => '0' | 1 => '1' | 2 => '2' | 3 => '3' | 4 => '4'
  | 5 => '5' | 6 => '6' | 7 => '7' | 8 => '8' | _ => '9'

/-- Two-digit zero-padded decimal rendering, as `strftime` does for
`%m %d %H %M %S` (faithful for `n < 100`, which holds of all such fields). -/
def pad2 (n : Nat) : List Char := [digitChar (n / 10), digitChar n]

/-- Four-digit zero-padded decimal rendering, as `strftime` does for `%Y`
(faithful for four-digit years, which holds of every `datetime.now()`). -/
def pad4 (n : Nat) : List Char :=
  [digitChar (n / 1000), digitChar (n / 100), digitChar (n / 10), digitChar n]

/-- Embedding of `datetime.now().strftime('%Y%m%d_%H%M%S')` (app.py line 95). -/
def strftime_ts (d : DateTime) : String :=
  String.mk (pad4 d.year ++ pad2 d.month ++ pad2 d.day ++
    '_' :: (pad2 d.hour ++ pad2 d.minute ++ pad2 d.second))

/-- Embedding of `filename.rsplit('.', 1)`: base name and lower-cased extension
(app.py lines 97-98). Only evaluated under the `allowed_file` guard, where a
dot is present; the `none` branch is unreachable there (Python would raise
IndexError on `[1]` for a dotless name). -/
def rsplitBaseExtLower (filename : String) : String × String :=
  match splitLastDot filename.data with
  | some (b, e) => (String.mk b, String.mk (e.map Char.toLower))
  | none => (filename, "")

structure Response where
  status : Nat
  /-- The `error` field of the JSON body, when present. -/
  error : Option String
  /-- The `success` field of the JSON body. -/
  success : Bool
  /-- The `filename` field of the JSON body, when present. -/
  filename : Option String
deriving DecidableEq

/-- A file in the staging directory after the handler returns. -/
structure StagedEntry where
  path : String
  bytesWritten : Nat
  complete : Bool
deriving DecidableEq

structure HandleResult where
  response : Response
  /-- Files created by this request that remain in the staging directory when
  the handler returns. -/
  staging : List StagedEntry
  /-- Background jobs dispatched (app.py line 115): `(filepath, unique_filename)`
  pairs handed to `process_audio_file` threads. -/
  dispatched : List (String × String)
deriving DecidableEq

/-- Number of iterations of the 8 KiB read loop needed to drain a stream of
`n` bytes: `⌈n / 8192⌉`. -/
def numChunks (n : Nat) : Nat := (n + CHUNK_SIZE - 1) / CHUNK_SIZE

/-- One iteration per chunk of the write loop (app.py lines 106-110), with the
iteration count `numChunks remaining` precomputed (the loop body runs exactly
once per non-empty `file.read(8192)` result, then breaks on the empty read).
`failAt = some k` simulates an OSError raised by the `f.write` of the `k`-th
(0-based) chunk; `.error w` is that exception with `w` bytes already written,
`.ok w` the drained stream with `w` bytes on disk. -/
def write_go : Nat → Nat → Nat → Option Nat → Nat → Except Nat Nat
  | 0, _, written, _, _ => .ok written
  | chunksLeft + 1, remaining, written, failAt, idx =>
    if failAt = some idx then .error written
    else
      write_go chunksLeft (remaining - min CHUNK_SIZE remaining)
        (written + min CHUNK_SIZE remaining) failAt (idx + 1)

/-- The chunked staging write (app.py lines 105-110) for a body of
`remaining` bytes. -/
def write_loop (remaining : Nat) (failAt : Option Nat) : Except Nat Nat :=
  write_go (numChunks remaining) remaining 0 failAt 0

/-- Embedding of `handle_upload` (app.py lines 72-128). Oracle inputs: `now` is the clock
reading of `datetime.now()` (line 95); `uuid8` the first 8 characters of
`str(uuid.uuid4())` (line 96), always 8 lower-case hex digits;
`writeFailAt`/`excMsg` simulate an I/O error in the chunked write loop
(`none` = every write succeeds). -/
def handle_upload (req : Request) (now : DateTime) (uuid8 : String)
    (writeFailAt : Option Nat) (excMsg : String) : HandleResult :=
  -- try: (line 75)
  match lookupField req.files "audio_file" with   -- line 76
  | none =>
    { response := { status := 400, error := some "No file selected",
                    success := false, filename := none },
      staging := [], dispatched := [] }
  | some file =>
    if file.filename = "" then   -- line 80
      { response := { status := 400, error := some "No file selected",
                      success := false, filename := none },
        staging := [], dispatched := [] }
    else
      -- lines 84-86: seek to end / tell / rewind, observing the size
      let file_size := file.size
      if file_size > MAX_CONTENT_LENGTH then   -- line 90
        { response := { status := 413,
                        error := some "File too large. Max size: 1000MB",
                        success := false, filename := none },
          staging := [], dispatched := [] }
      else if allowed_file file.filename then   -- line 93
        let timestamp := strftime_ts now                     -- line 95
        let unique_id := uuid8                               -- line 96
        let be := rsplitBaseExtLower file.filename           -- lines 97-98
        let unique_filename :=                               -- line 99
          timestamp ++ "_" ++ unique_id ++ "_" ++ be.1 ++ "." ++ be.2
        let filepath := UPLOAD_FOLDER ++ "/" ++ unique_filename  -- line 101
        match write_loop file_size writeFailAt with          -- lines 105-110
        | .error written =>
          -- the OSError propagates to the handler at line 126: respond 500;
          -- the partial staging file is NOT removed by any code path
          { response := { status := 500,
                          error := some ("Upload failed: " ++ excMsg),
                          success := false, filename := none },
            staging := [{ path := filepath, bytesWritten := written,
                          complete := false }],
            dispatched := [] }
        | .ok written =>
          { response := { status := 200, error := none, success := true,
                          filename := some unique_filename },
            staging := [{ path := filepath, bytesWritten := written,
                          complete := true }],
            dispatched := [(filepath, unique_filename)] }    -- line 115
      else
        -- line 124
        { response := { status := 400,
                        error := some "Invalid file type. Please upload M4A, MP3, WAV, or AAC files.",
                        success := false, filename := none },
          staging := [], dispatched := [] }

theorem splitLastDot_none_iff (l : List Char) :
    splitLastDot l = none ↔ '.' ∉ l := by
  induction l with
  | nil => simp [splitLastDot]
  | cons c rest ih =>
    simp only [splitLastDot]
    cases h : splitLastDot rest with
    | some p =>
      obtain ⟨b, e⟩ := p
      have hrest : '.' ∈ rest := by
        by_contra hn
        rw [ih.mpr hn] at h
        exact Option.noConfusion h
      simp [hrest]
    | none =>
      have hrest : '.' ∉ rest := ih.mp h
      by_cases hc : c = '.'
      · simp [hc]
      · simp [hc, hrest, Ne.symm hc]

theorem takeWhile_append_of_exists_not {α : Type} (p : α → Bool) (l l' : List α)
    (h : ∃ x ∈ l, p x = false) :
    (l ++ l').takeWhile p = l.takeWhile p := by
  induction l with
  | nil => simp at h
  | cons a t ih =>
    by_cases hp : p a
    · have ht : ∃ x ∈ t, p x = false := by
        obtain ⟨x, hx, hpx⟩ := h
        rcases List.mem_cons.mp hx with rfl | hxt
        · rw [hp] at hpx; exact absurd hpx (by simp)
        · exact ⟨x, hxt, hpx⟩
      simp [List.takeWhile_cons, hp, ih ht]
    · simp [List.takeWhile_cons, hp]

theorem takeWhile_append_all {α : Type} (p : α → Bool) (l : List α)
    (h : ∀ x ∈ l, p x = true) (a : α) (ha : p a = false) (l' : List α) :
    (l ++ a :: l').takeWhile p = l := by
  induction l with
  | nil => simp [List.takeWhile_cons, ha]
  | cons b t ih =>
    have hb : p b = true := h b (List.mem_cons_self _ _)
    have ht : ∀ x ∈ t, p x = true := fun x hx => h x (List.mem_cons_of_mem _ hx)
    simp [List.takeWhile_cons, hb, ih ht]

theorem afterLastDot_cons_of_mem (c : Char) (rest : List Char) (h : '.' ∈ rest) :
    afterLastDot (c :: rest) = afterLastDot rest := by
  unfold afterLastDot
  rw [List.reverse_cons,
    takeWhile_append_of_exists_not _ _ _
      ⟨'.', List.mem_reverse.mpr h, by simp⟩]

theorem splitLastDot_some_ext (l b e : List Char)
    (h : splitLastDot l = some (b, e)) : e = afterLastDot l := by
  induction l generalizing b e with
  | nil => exact Option.noConfusion h
  | cons c rest ih =>
    simp only [splitLastDot] at h
    cases hr : splitLastDot rest with
    | some p =>
      obtain ⟨b', e'⟩ := p
      rw [hr] at h
      have hmem : '.' ∈ rest := by
        by_contra hn
        rw [(splitLastDot_none_iff rest).mpr hn] at hr
        exact Option.noConfusion hr
      rw [afterLastDot_cons_of_mem c rest hmem]
      injection h with h'
      cases h'
      exact ih _ _ hr
    | none =>
      rw [hr] at h
      by_cases hc : c = '.'
      · rw [if_pos hc] at h
        injection h with h'
        cases h'
        have hnotin : '.' ∉ rest := (splitLastDot_none_iff rest).mp hr
        subst hc
        unfold afterLastDot
        rw [List.reverse_cons,
          takeWhile_append_all _ _
            (fun x hx => by
              simp only [decide_eq_true_eq, ne_eq]
              intro hxe
              exact hnotin (List.mem_reverse.mp (hxe ▸ hx)))
            '.' (by simp) []]
        exact (List.reverse_reverse _).symm
      · rw [if_neg hc] at h
        exact Option.noConfusion h

/-- C7: `allowed_file` returns true iff the filename contains a `'.'` and the
lower-cased substring after the last `'.'` is one of `m4a`, `mp3`, `wav`, `aac`;
filenames with no dot, an empty extension, or an unlisted extension are
rejected. The right-hand side computes the extension independently of the
code's `rsplit`, as the maximal dot-free suffix. -/
theorem C7_allowed_file_characterization (filename : String) :
    allowed_file filename = true ↔
      ('.' ∈ filename.data ∧
        (afterLastDot filename.data).map Char.toLower ∈ allowedExtensions) := by
  unfold allowed_file
  cases h : splitLastDot filename.data with
  | none =>
    have : '.' ∉ filename.data := (splitLastDot_none_iff _).mp h
    simp [this]
  | some p =>
    obtain ⟨b, e⟩ := p
    have hdot : '.' ∈ filename.data := by
      by_contra hn
      rw [(splitLastDot_none_iff _).mpr hn] at h
      exact Option.noConfusion h
    have he : e = afterLastDot filename.data := splitLastDot_some_ext _ _ _ h
    simp [hdot, he, List.contains, List.elem_eq_mem]

/-! ## Write-loop lemmas -/

theorem write_go_none (chunksLeft : Nat) :
    ∀ remaining written idx, chunksLeft = numChunks remaining →
      write_go chunksLeft remaining written none idx = .ok (written + remaining) := by
  induction chunksLeft with
  | zero =>
    intro remaining written idx h
    have hr : remaining = 0 := by
      simp only [numChunks, CHUNK_SIZE] at h
      omega
    simp [write_go, hr]
  | succ cl ih =>
    intro remaining written idx h
    have hrec := ih (remaining - min CHUNK_SIZE remaining)
      (written + min CHUNK_SIZE remaining) (idx + 1)
      (by simp only [numChunks, CHUNK_SIZE] at h ⊢; omega)
    simp only [write_go]
    rw [if_neg (by simp), hrec]
    congr 1
    have : min CHUNK_SIZE remaining ≤ remaining := Nat.min_le_right _ _
    omega

theorem write_go_fail (j : Nat) :
    ∀ chunksLeft remaining written idx,
      j < chunksLeft → chunksLeft = numChunks remaining →
      write_go chunksLeft remaining written (some (idx + j)) idx
        = .error (written + j * CHUNK_SIZE) := by
  induction j with
  | zero =>
    intro chunksLeft remaining written idx hj h
    obtain ⟨cl, rfl⟩ : ∃ cl, chunksLeft = cl + 1 := ⟨chunksLeft - 1, by omega⟩
    simp [write_go]
  | succ j ih =>
    intro chunksLeft remaining written idx hj h
    obtain ⟨cl, rfl⟩ : ∃ cl, chunksLeft = cl + 1 := ⟨chunksLeft - 1, by omega⟩
    have hbig : remaining > CHUNK_SIZE := by
      simp only [numChunks, CHUNK_SIZE] at h ⊢
      omega
    have hrec := ih cl (remaining - min CHUNK_SIZE remaining)
      (written + min CHUNK_SIZE remaining) (idx + 1) (by omega)
      (by simp only [numChunks, CHUNK_SIZE] at h ⊢; omega)
    simp only [write_go]
    rw [if_neg (by simp)]
    have harg : idx + 1 + j = idx + (j + 1) := by omega
    rw [harg] at hrec
    rw [hrec]
    congr 1
    have hmin : min CHUNK_SIZE remaining = CHUNK_SIZE :=
      Nat.min_eq_left (by omega)
    rw [hmin]
    ring

theorem write_loop_none (n : Nat) : write_loop n none = .ok n := by
  simpa [write_loop] using write_go_none (numChunks n) n 0 0 rfl

theorem write_loop_fail (n k : Nat) (hk : k < numChunks n) :
    write_loop n (some k) = .error (k * CHUNK_SIZE) := by
  simpa [write_loop] using write_go_fail k (numChunks n) n 0 0 hk rfl

/-! ## Claims about the Transfer Worker -/

/-- C2: every invocation of the transfer worker on a staged file deletes the
local staged file exactly once on every terminal path — duplicate skip,
successful upload, and any failure during the existence check or the upload:
one `os.remove`, no orphaned file, no double delete. -/
theorem C2_worker_deletes_exactly_once (name : String) (file_size : Nat)
    (oracle : StorageOracle) :
    (process_audio_file name file_size oracle).trace.deletes = 1 ∧
      (process_audio_file name file_size oracle).trace.fileRemains = false := by
  obtain ⟨er, ur⟩ := oracle
  cases er with
  | error e => simp [process_audio_file, worker_try_body, worker_except]
  | ok b =>
    cases b with
    | true => simp [process_audio_file, worker_try_body]
    | false =>
      cases ur with
      | error e =>
        by_cases hs : file_size > RESUMABLE_THRESHOLD <;>
          simp [process_audio_file, worker_try_body, worker_except, hs]
      | ok u =>
        by_cases hs : file_size > RESUMABLE_THRESHOLD <;>
          simp [process_audio_file, worker_try_body, hs]

/-- C3: when the destination key already has an object (`blob.exists()` is
true), the worker performs exactly one existence check at the computed key,
makes zero put calls, deletes the local staged file, and terminates without
error. -/
theorem C3_duplicate_skip (name : String) (file_size : Nat)
    (oracle : StorageOracle) (h : oracle.existsResult = .ok true) :
    (process_audio_file name file_size oracle).trace.existsKeys
        = ["audio-uploads/" ++ name] ∧
    (process_audio_file name file_size oracle).trace.putKeys = [] ∧
    (process_audio_file name file_size oracle).trace.deletes = 1 ∧
    (process_audio_file name file_size oracle).trace.fileRemains = false ∧
    (process_audio_file name file_size oracle).raised = false ∧
    (process_audio_file name file_size oracle).caughtError = none := by
  obtain ⟨er, ur⟩ := oracle
  simp only at h
  subst h
  simp [process_audio_file, worker_try_body]

theorem C3_duplicate_skip_witness :
    (process_audio_file "x.m4a" 10 ⟨.ok true, .ok ()⟩).trace.existsKeys
        = ["audio-uploads/" ++ "x.m4a"] ∧
    (process_audio_file "x.m4a" 10 ⟨.ok true, .ok ()⟩).trace.putKeys = [] ∧
    (process_audio_file "x.m4a" 10 ⟨.ok true, .ok ()⟩).trace.deletes = 1 ∧
    (process_audio_file "x.m4a" 10 ⟨.ok true, .ok ()⟩).trace.fileRemains = false ∧
    (process_audio_file "x.m4a" 10 ⟨.ok true, .ok ()⟩).raised = false ∧
    (process_audio_file "x.m4a" 10 ⟨.ok true, .ok ()⟩).caughtError = none :=
  C3_duplicate_skip "x.m4a" 10 ⟨.ok true, .ok ()⟩ rfl

/-- C8: any exception during the existence check or the upload is caught
inside the worker — the failure is logged (`caughtError` carries the message)
and nothing propagates to the caller; the worker terminates normally. -/
theorem C8_worker_catches_exceptions (name : String) (file_size : Nat)
    (oracle : StorageOracle) (e : String)
    (h : oracle.existsResult = .error e ∨
         (oracle.existsResult = .ok false ∧ oracle.uploadResult = .error e)) :
    (process_audio_file name file_size oracle).raised = false ∧
    (process_audio_file name file_size oracle).caughtError = some e := by
  obtain ⟨er, ur⟩ := oracle
  rcases h with h | ⟨h1, h2⟩
  · simp only at h
    subst h
    simp [process_audio_file, worker_try_body, worker_except]
  · simp only at h1 h2
    subst h1
    subst h2
    by_cases hs : file_size > RESUMABLE_THRESHOLD <;>
      simp [process_audio_file, worker_try_body, worker_except, hs]

theorem C8_worker_catches_exceptions_witness :
    (process_audio_file "y.wav" 20 ⟨.error "backend unreachable", .ok ()⟩).raised
        = false ∧
    (process_audio_file "y.wav" 20 ⟨.error "backend unreachable", .ok ()⟩).caughtError
        = some "backend unreachable" :=
  C8_worker_catches_exceptions "y.wav" 20 ⟨.error "backend unreachable", .ok ()⟩
    "backend unreachable" (Or.inl rfl)

/-! ## Claims about the Upload Coordinator -/

/-- C4: an upload whose size exceeds the configured maximum is rejected with
413 before any byte is written to the staging directory, and regardless of the
extension — the size gate precedes the extension check, so an oversized file
with a disallowed extension still gets 413 rather than 400. Zero staging files
are created and no job is dispatched. -/
theorem C4_oversize_rejected_before_write (req : Request) (now : DateTime)
    (uuid8 : String) (writeFailAt : Option Nat) (excMsg : String)
    (file : FilePart) (hf : lookupField req.files "audio_file" = some file)
    (hname : file.filename ≠ "") (hsize : file.size > MAX_CONTENT_LENGTH) :
    (handle_upload req now uuid8 writeFailAt excMsg).response.status = 413 ∧
    (handle_upload req now uuid8 writeFailAt excMsg).staging = [] ∧
    (handle_upload req now uuid8 writeFailAt excMsg).dispatched = [] := by
  unfold handle_upload
  rw [hf]
  simp [hname, hsize]

/-- Witness for C4: a 1048576001-byte upload (one byte over the 1000 MiB
ceiling) with the disallowed extension `.txt` gets 413, not 400. -/
theorem C4_oversize_rejected_before_write_witness :
    (handle_upload ⟨[("audio_file", ⟨"huge.txt", 1048576001⟩)]⟩
        ⟨2026, 5, 6, 7, 8, 9⟩ "00aa11bb" none "unused").response.status = 413 ∧
    (handle_upload ⟨[("audio_file", ⟨"huge.txt", 1048576001⟩)]⟩
        ⟨2026, 5, 6, 7, 8, 9⟩ "00aa11bb" none "unused").staging = [] ∧
    (handle_upload ⟨[("audio_file", ⟨"huge.txt", 1048576001⟩)]⟩
        ⟨2026, 5, 6, 7, 8, 9⟩ "00aa11bb" none "unused").dispatched = [] :=
  C4_oversize_rejected_before_write ⟨[("audio_file", ⟨"huge.txt", 1048576001⟩)]⟩
    ⟨2026, 5, 6, 7, 8, 9⟩ "00aa11bb" none "unused" ⟨"huge.txt", 1048576001⟩
    (by decide) (by decide) (by decide)

/-- C9 as stated is false: a request whose only multipart field is `file` —
the alternative field name the claim says is accepted — is rejected with
400 `{"error": "No file selected"}`; the handler consults only `audio_file`. -/
theorem C9_counterexample :
    (handle_upload ⟨[("file", ⟨"clip.m4a", 10⟩)]⟩ ⟨2026, 1, 2, 3, 4, 5⟩
        "0123abcd" none "unused").response
      = { status := 400, error := some "No file selected", success := false,
          filename := none } ∧
    (handle_upload ⟨[("file", ⟨"clip.m4a", 10⟩)]⟩ ⟨2026, 1, 2, 3, 4, 5⟩
        "0123abcd" none "unused").dispatched = [] := by
  decide

/-- C9 amended: only the multipart field `audio_file` is accepted. Any request
lacking that field — whatever other fields it carries, including one named
`file` — or carrying it with an empty filename receives
400 `{"error": "No file selected"}`, with nothing staged and nothing
dispatched. -/
theorem C9_amended_audio_file_field_only (req : Request) (now : DateTime)
    (uuid8 : String) (writeFailAt : Option Nat) (excMsg : String)
    (h : lookupField req.files "audio_file" = none ∨
         ∃ file, lookupField req.files "audio_file" = some file ∧
           file.filename = "") :
    (handle_upload req now uuid8 writeFailAt excMsg).response.status = 400 ∧
    (handle_upload req now uuid8 writeFailAt excMsg).response.error
        = some "No file selected" ∧
    (handle_upload req now uuid8 writeFailAt excMsg).staging = [] ∧
    (handle_upload req now uuid8 writeFailAt excMsg).dispatched = [] := by
  rcases h with h | ⟨file, hf, hempty⟩
  · unfold handle_upload
    rw [h]
    simp
  · unfold handle_upload
    rw [hf]
    simp [hempty]

theorem C9_amended_audio_file_field_only_witness :
    (handle_upload ⟨[("file", ⟨"song.mp3", 42⟩)]⟩ ⟨2026, 6, 7, 8, 9, 10⟩
        "deadbeef" none "unused").response.status = 400 ∧
    (handle_upload ⟨[("file", ⟨"song.mp3", 42⟩)]⟩ ⟨2026, 6, 7, 8, 9, 10⟩
        "deadbeef" none "unused").response.error = some "No file selected" ∧
    (handle_upload ⟨[("file", ⟨"song.mp3", 42⟩)]⟩ ⟨2026, 6, 7, 8, 9, 10⟩
        "deadbeef" none "unused").staging = [] ∧
    (handle_upload ⟨[("file", ⟨"song.mp3", 42⟩)]⟩ ⟨2026, 6, 7, 8, 9, 10⟩
        "deadbeef" none "unused").dispatched = [] :=
  C9_amended_audio_file_field_only ⟨[("file", ⟨"song.mp3", 42⟩)]⟩
    ⟨2026, 6, 7, 8, 9, 10⟩ "deadbeef" none "unused" (Or.inl (by decide))

/-- C10: the size gate uses strict comparison. A request never receives 413
when its size is at most the maximum; and at exactly the configured maximum
(1000*1024*1024 bytes), with an allowed extension and no staging failure, the
upload proceeds to staging, one dispatched job, and a 200 response. -/
theorem C10_size_gate_strict (req : Request) (now : DateTime) (uuid8 : String)
    (writeFailAt : Option Nat) (excMsg : String) (file : FilePart)
    (hf : lookupField req.files "audio_file" = some file)
    (hle : file.size ≤ MAX_CONTENT_LENGTH) :
    (handle_upload req now uuid8 writeFailAt excMsg).response.status ≠ 413 ∧
    (file.size = MAX_CONTENT_LENGTH → allowed_file file.filename = true →
      writeFailAt = none →
      (handle_upload req now uuid8 writeFailAt excMsg).response.status = 200 ∧
      (handle_upload req now uuid8 writeFailAt excMsg).response.success = true ∧
      (handle_upload req now uuid8 writeFailAt excMsg).staging.length = 1 ∧
      (handle_upload req now uuid8 writeFailAt excMsg).dispatched.length = 1) := by
  have hnot : ¬ file.size > MAX_CONTENT_LENGTH := Nat.not_lt.mpr hle
  constructor
  · unfold handle_upload
    rw [hf]
    by_cases hname : file.filename = ""
    · simp [hname]
    · simp only [if_neg hname, if_neg hnot]
      by_cases hext : allowed_file file.filename
      · simp only [hext, if_true]
        cases hw : write_loop file.size writeFailAt <;> simp
      · simp [hext]
  · intro _ hext hnone
    subst hnone
    unfold handle_upload
    rw [hf]
    have hname : ¬ file.filename = "" := by
      intro hc
      rw [hc] at hext
      simp [allowed_file, splitLastDot] at hext
    simp only [if_neg hname, if_neg hnot, hext, if_true]
    rw [write_loop_none]
    simp

theorem C10_size_gate_strict_witness :
    (handle_upload ⟨[("audio_file", ⟨"clip.m4a", 1048576000⟩)]⟩
        ⟨2026, 7, 8, 9, 10, 11⟩ "12345678" none "unused").response.status ≠ 413 ∧
    ((1048576000 : Nat) = MAX_CONTENT_LENGTH →
      allowed_file "clip.m4a" = true → (none : Option Nat) = none →
      (handle_upload ⟨[("audio_file", ⟨"clip.m4a", 1048576000⟩)]⟩
          ⟨2026, 7, 8, 9, 10, 11⟩ "12345678" none "unused").response.status = 200 ∧
      (handle_upload ⟨[("audio_file", ⟨"clip.m4a", 1048576000⟩)]⟩
          ⟨2026, 7, 8, 9, 10, 11⟩ "12345678" none "unused").response.success = true ∧
      (handle_upload ⟨[("audio_file", ⟨"clip.m4a", 1048576000⟩)]⟩
          ⟨2026, 7, 8, 9, 10, 11⟩ "12345678" none "unused").staging.length = 1 ∧
      (handle_upload ⟨[("audio_file", ⟨"clip.m4a", 1048576000⟩)]⟩
          ⟨2026, 7, 8, 9, 10, 11⟩ "12345678" none "unused").dispatched.length = 1) :=
  C10_size_gate_strict ⟨[("audio_file", ⟨"clip.m4a", 1048576000⟩)]⟩
    ⟨2026, 7, 8, 9, 10, 11⟩ "12345678" none "unused" ⟨"clip.m4a", 1048576000⟩
    (by decide) (by decide)

/-- C1 as stated is false: for an upload that passed the presence, size and
extension gates (`clip.m4a`, 10000 bytes), an I/O failure at the first chunk
write produces the error response, but the partially written file is left in
the staging directory — it is not removed, so the directory is not empty
afterwards. -/
theorem C1_counterexample :
    (handle_upload ⟨[("audio_file", ⟨"clip.m4a", 10000⟩)]⟩ ⟨2026, 3, 4, 5, 6, 7⟩
        "89abcdef" (some 0) "disk full").response.status = 500 ∧
    ¬ (handle_upload ⟨[("audio_file", ⟨"clip.m4a", 10000⟩)]⟩ ⟨2026, 3, 4, 5, 6, 7⟩
        "89abcdef" (some 0) "disk full").staging = [] := by
  decide

/-- C1 amended: on a staging I/O failure mid-write the handler returns an
error response (500), but the partially written file is NOT removed — exactly
one incomplete file, holding the bytes of the chunks written before the
failure, remains in the staging directory, and no job is dispatched. -/
theorem C1_amended_staged_file_not_removed (req : Request) (now : DateTime)
    (uuid8 : String) (excMsg : String) (file : FilePart) (k : Nat)
    (hf : lookupField req.files "audio_file" = some file)
    (hname : file.filename ≠ "") (hsize : ¬ file.size > MAX_CONTENT_LENGTH)
    (hext : allowed_file file.filename = true) (hk : k < numChunks file.size) :
    (handle_upload req now uuid8 (some k) excMsg).response.status = 500 ∧
    ∃ p, (handle_upload req now uuid8 (some k) excMsg).staging
          = [{ path := p, bytesWritten := k * CHUNK_SIZE, complete := false }] ∧
        (handle_upload req now uuid8 (some k) excMsg).dispatched = [] := by
  unfold handle_upload
  rw [hf]
  simp only [if_neg hname, if_neg hsize, hext, if_true]
  rw [write_loop_fail _ _ hk]
  exact ⟨rfl, _, rfl, rfl⟩

theorem C1_amended_staged_file_not_removed_witness :
    (handle_upload ⟨[("audio_file", ⟨"a.mp3", 9000⟩)]⟩ ⟨2026, 2, 3, 4, 5, 6⟩
        "aabbccdd" (some 1) "disk full").response.status = 500 ∧
    ∃ p, (handle_upload ⟨[("audio_file", ⟨"a.mp3", 9000⟩)]⟩ ⟨2026, 2, 3, 4, 5, 6⟩
          "aabbccdd" (some 1) "disk full").staging
          = [{ path := p, bytesWritten := 1 * CHUNK_SIZE, complete := false }] ∧
        (handle_upload ⟨[("audio_file", ⟨"a.mp3", 9000⟩)]⟩ ⟨2026, 2, 3, 4, 5, 6⟩
          "aabbccdd" (some 1) "disk full").dispatched = [] :=
  C1_amended_staged_file_not_removed ⟨[("audio_file", ⟨"a.mp3", 9000⟩)]⟩
    ⟨2026, 2, 3, 4, 5, 6⟩ "aabbccdd" "disk full" ⟨"a.mp3", 9000⟩ 1
    (by decide) (by decide) (by decide) (by decide) (by decide)

/-- C6 as stated is false: the 500 response on a staging I/O error is not
generic — it embeds the underlying exception text verbatim, here including an
internal staging-directory path, after the prefix `Upload failed: `. -/
theorem C6_counterexample :
    (handle_upload ⟨[("audio_file", ⟨"b.wav", 5⟩)]⟩ ⟨2026, 4, 5, 6, 7, 8⟩
        "0f1e2d3c" (some 0)
        "[Errno 13] Permission denied: /tmp/uploads/x").response.status = 500 ∧
    (handle_upload ⟨[("audio_file", ⟨"b.wav", 5⟩)]⟩ ⟨2026, 4, 5, 6, 7, 8⟩
        "0f1e2d3c" (some 0)
        "[Errno 13] Permission denied: /tmp/uploads/x").response.error
      = some "Upload failed: [Errno 13] Permission denied: /tmp/uploads/x" ∧
    List.IsInfix "/tmp/uploads".data
      "Upload failed: [Errno 13] Permission denied: /tmp/uploads/x".data := by
  refine ⟨by decide, by decide, "Upload failed: [Errno 13] Permission denied: ".data,
    "/x".data, by decide⟩

/-- C6 amended: every staging I/O error is surfaced as a 500, but the error
message is `Upload failed: ` followed by the underlying exception text — the
internal detail (which for an OSError includes the staging path) is included
in the client-visible message rather than suppressed. -/
theorem C6_amended_error_detail_included (req : Request) (now : DateTime)
    (uuid8 : String) (excMsg : String) (file : FilePart) (k : Nat)
    (hf : lookupField req.files "audio_file" = some file)
    (hname : file.filename ≠ "") (hsize : ¬ file.size > MAX_CONTENT_LENGTH)
    (hext : allowed_file file.filename = true) (hk : k < numChunks file.size) :
    (handle_upload req now uuid8 (some k) excMsg).response.status = 500 ∧
    (handle_upload req now uuid8 (some k) excMsg).response.error
      = some ("Upload failed: " ++ excMsg) := by
  unfold handle_upload
  rw [hf]
  simp only [if_neg hname, if_neg hsize, hext, if_true]
  rw [write_loop_fail _ _ hk]
  exact ⟨rfl, rfl⟩

theorem C6_amended_error_detail_included_witness :
    (handle_upload ⟨[("audio_file", ⟨"c.aac", 100⟩)]⟩ ⟨2026, 8, 9, 10, 11, 12⟩
        "fedcba98" (some 0) "[Errno 28] No space left on device").response.status
      = 500 ∧
    (handle_upload ⟨[("audio_file", ⟨"c.aac", 100⟩)]⟩ ⟨2026, 8, 9, 10, 11, 12⟩
        "fedcba98" (some 0) "[Errno 28] No space left on device").response.error
      = some ("Upload failed: " ++ "[Errno 28] No space left on device") :=
  C6_amended_error_detail_included ⟨[("audio_file", ⟨"c.aac", 100⟩)]⟩
    ⟨2026, 8, 9, 10, 11, 12⟩ "fedcba98" "[Errno 28] No space left on device"
    ⟨"c.aac", 100⟩ 0 (by decide) (by decide) (by decide) (by decide) (by decide)

/-! ## Key-format lemmas (for C5) -/

theorem digitChar_isDigit (n : Nat) : isDigitCh (digitChar n) = true := by
  unfold digitChar
  split <;> decide

theorem pad2_digits (n : Nat) : ∀ c ∈ pad2 n, isDigitCh c = true := by
  intro c hc
  simp only [pad2, List.mem_cons, List.not_mem_nil, or_false] at hc
  rcases hc with rfl | rfl <;> exact digitChar_isDigit _

theorem pad4_digits (n : Nat) : ∀ c ∈ pad4 n, isDigitCh c = true := by
  intro c hc
  simp only [pad4, List.mem_cons, List.not_mem_nil, or_false] at hc
  rcases hc with rfl | rfl | rfl | rfl <;> exact digitChar_isDigit _

/-- C5: for the accepted upload `clip.M4A` (any size within the limit, any
clock reading, any 8-hex-digit random suffix), the `filename` of the 200
response has the form `<timestamp>_<8-hex>_clip.m4a`: it matches
`\d{8}_\d{6}_[0-9a-f]{8}_clip\.m4a`, with the extension lower-cased. -/
theorem C5_response_filename_pattern (req : Request) (now : DateTime)
    (uuid8 : String) (excMsg : String) (file : FilePart)
    (hf : lookupField req.files "audio_file" = some file)
    (hfn : file.filename = "clip.M4A")
    (hsize : file.size ≤ MAX_CONTENT_LENGTH)
    (hu8 : uuid8.data.length = 8)
    (huh : ∀ c ∈ uuid8.data, isLowerHexCh c = true) :
    (handle_upload req now uuid8 none excMsg).response.status = 200 ∧
    ∃ u, (handle_upload req now uuid8 none excMsg).response.filename = some u ∧
      clipPattern u := by
  have hnot : ¬ file.size > MAX_CONTENT_LENGTH := Nat.not_lt.mpr hsize
  have hname : ¬ file.filename = "" := by rw [hfn]; decide
  have hext : allowed_file file.filename = true := by rw [hfn]; decide
  have hsplit : rsplitBaseExtLower "clip.M4A" = ("clip", "m4a") := by decide
  unfold handle_upload
  rw [hf]
  simp only [if_neg hname, if_neg hnot, hext, if_true]
  rw [write_loop_none, hfn, hsplit]
  refine ⟨rfl, _, rfl, ?_⟩
  refine ⟨pad4 now.year ++ pad2 now.month ++ pad2 now.day,
          pad2 now.hour ++ pad2 now.minute ++ pad2 now.second, uuid8.data,
          ?_, by simp [pad4, pad2], by simp [pad2], hu8, ?_, ?_, huh⟩
  · rw [String.data_append, String.data_append, String.data_append,
      String.data_append, String.data_append, String.data_append]
    have e1 : ("_" : String).data = ['_'] := rfl
    have e2 : (("clip", "m4a").1 : String).data = ['c', 'l', 'i', 'p'] := rfl
    have e3 : ("." : String).data = ['.'] := rfl
    have e4 : (("clip", "m4a").2 : String).data = ['m', '4', 'a'] := rfl
    have e5 : ("_clip.m4a" : String).data
        = ['_', 'c', 'l', 'i', 'p', '.', 'm', '4', 'a'] := rfl
    have e6 : (strftime_ts now).data
        = pad4 now.year ++ pad2 now.month ++ pad2 now.day ++
            '_' :: (pad2 now.hour ++ pad2 now.minute ++ pad2 now.second) := rfl
    rw [e1, e2, e3, e4, e5, e6]
    simp [List.append_assoc]
  · intro c hc
    simp only [List.append_assoc, List.mem_append] at hc
    rcases hc with hc | hc | hc
    · exact pad4_digits _ c hc
    · exact pad2_digits _ c hc
    · exact pad2_digits _ c hc
  · intro c hc
    simp only [List.append_assoc, List.mem_append] at hc
    rcases hc with hc | hc | hc <;> exact pad2_digits _ c hc

theorem C5_response_filename_pattern_witness :
    (handle_upload ⟨[("audio_file", ⟨"clip.M4A", 10⟩)]⟩ ⟨2026, 10, 12, 13, 14, 15⟩
        "0a1b2c3d" none "unused").response.status = 200 ∧
    ∃ u, (handle_upload ⟨[("audio_file", ⟨"clip.M4A", 10⟩)]⟩
          ⟨2026, 10, 12, 13, 14, 15⟩ "0a1b2c3d" none "unused").response.filename
        = some u ∧ clipPattern u :=
  C5_response_filename_pattern ⟨[("audio_file", ⟨"clip.M4A", 10⟩)]⟩
    ⟨2026, 10, 12, 13, 14, 15⟩ "0a1b2c3d" "unused" ⟨"clip.M4A", 10⟩
    (by decide) (by decide) (by decide) (by decide) (by decide)

end M4aUpload
